import Mathlib

/-!
Verification development for the LOGOS-κ repository (A-Universum/logos-k).

The Python sources are shallowly embedded:
* Python `float` values are modelled as exact rationals (`ℚ`); all the
  arithmetic the claims mention (weighted sums, `min`/`max` clamps,
  multiplication by decimal constants) is carried out exactly.
* Mutation is modelled by explicit state passing: a method that mutates
  `self` becomes a function returning the updated record (together with the
  method's return value where there is one).
* `datetime.now()` / `uuid` values are passed in as explicit parameters,
  making the ambient effects explicit.
* Python dictionaries with a fixed key set become records; a possibly
  missing key becomes an `Option` field; code that can raise becomes
  `Except`.
-/

namespace LogosK

/-! ## axiom.py — `OntologicalAxioms` (the parts the claims use) -/

/-- Constant `ABSOLUTISM_KEYWORDS` from `src/core/axiom.py` (a Python `set`,
modelled as the list of its elements; only membership is ever used). -/
def ABSOLUTISM_KEYWORDS : List String :=
  ["всегда", "никогда", "единственный", "единственно",
   "абсолютно", "непреложный", "неоспоримо"]

/-- Python `str.lower` restricted to the scripts the repository uses:
ASCII letters and the Cyrillic block actually occurring in the sources
(`А`–`Я` map to `а`–`я`, `Ё` to `ё`); every other character is left
unchanged, exactly as `str.lower` leaves the lowercase/non-cased
characters of these scripts unchanged. -/
def pyLowerChar (c : Char) : Char :=
  if 'A' ≤ c ∧ c ≤ 'Z' then Char.ofNat (c.toNat + 32)
  else if 'А' ≤ c ∧ c ≤ 'Я' then Char.ofNat (c.toNat + 32)
  else if c = 'Ё' then 'ё'
  else c

/-- Python `text.lower()` (see `pyLowerChar`), character by character. -/
def pyLower (s : String) : String := String.mk (s.data.map pyLowerChar)

/-- The whitespace characters Python's argument-less `str.split` splits on
(for the ASCII/Cyrillic texts in this repository). -/
def isPySpace (c : Char) : Bool :=
  c = ' ' ∨ c = '\t' ∨ c = '\n' ∨ c = '\r' ∨ c = '\x0b' ∨ c = '\x0c'

/-- Worker for `pySplit`: walks the characters accumulating the current
word (reversed); whitespace closes the word, if any. -/
def pySplitAux : List Char → List Char → List String
  | [], acc => if acc = [] then [] else [String.mk acc.reverse]
  | c :: cs, acc =>
    if isPySpace c then
      if acc = [] then pySplitAux cs []
      else String.mk acc.reverse :: pySplitAux cs []
    else pySplitAux cs (c :: acc)

/-- Python `text.split()`: split on runs of whitespace, producing no
empty words (leading/trailing whitespace yields nothing). -/
def pySplit (s : String) : List String := pySplitAux s.data []

/-- Method `OntologicalAxioms.validate_no_absolutism` (`src/core/axiom.py`,
lines 131–141).  `text : Option String` models the `str`-or-`None`
argument; `none` and `""` are both falsy in Python, so both take the
early `return`.  Raising `OntologicalLimitError` is modelled as
`Except.error` carrying the message. -/
def validate_no_absolutism (text : Option String) : Except String Unit :=
  match text with
  | none => Except.ok ()
  | some t =>
    if t = "" then Except.ok ()
    else
      let words := pySplit (pyLower t)
      if ABSOLUTISM_KEYWORDS.any (fun k => words.contains k) then
        Except.error
          "Обнаружена абсолютистская формулировка. LOGOS-κ запрещает заявления без признания границы (см. Ω-Принцип)."
      else Except.ok ()

/-! ## event.py — `OntologicalEvent` -/

/-- Dataclass `OntologicalEvent` (`src/core/event.py`).  The dataclass defaults are
kept; `timestamp` is a clock tick, `result` is the optional free-form
result (string-coerced where the source does), `tensions_*` are Python
ints.  The derived `fair_care_meta`/`provenance` export dictionaries are
not carried: they are rebuilt from the other fields by `__post_init__`
and no claim mentions them. -/
structure OntologicalEvent where
  id : String := "event_00000000"
  timestamp : Nat := 0
  gesture : String := ""
  event_version : String := "1.0"
  operands : List String := []
  result : Option String := none
  entities_affected : List String := []
  blind_spots_involved : List String := []
  coherence_before : ℚ := 0
  coherence_after : ℚ := 0
  tensions_resolved : ℤ := 0
  tensions_created : ℤ := 0
  uncertainty_level : ℚ := 0
  phi_meta : List String := []
  omega_trigger : Bool := false
  habeas_weight_id : String := ""
  creator_intent : Option String := none
deriving DecidableEq

/-- Method `OntologicalEvent.significance_score` (`src/core/event.py`,
lines 93–116), with Python truthiness of the two lists written out. -/
def significance_score (e : OntologicalEvent) : ℚ :=
  let coherence_change := |e.coherence_after - e.coherence_before|
  let meta_weight : ℚ := if e.phi_meta = [] then 0 else 2/10
  let tension_net : ℚ :=
    (e.tensions_resolved : ℚ) * (2/10) - (e.tensions_created : ℚ) * (1/10)
  let blind_spot_weight : ℚ := if e.blind_spots_involved = [] then 0 else 1/10
  let score :=
    min 1 (coherence_change * (4/10) + meta_weight + tension_net + blind_spot_weight)
  max 0 score

/-- The concrete event of testable property 4 of the spec. -/
def significanceExampleEvent : OntologicalEvent :=
  { coherence_before := 2/10
    coherence_after := 6/10
    phi_meta := ["x"]
    tensions_resolved := 1
    tensions_created := 0
    blind_spots_involved := ["chaos"] }

/-! ## relation.py — `OntologicalRelation` -/

/-- The result dictionary returned by a successful
`OntologicalRelation.activate` (`src/core/relation.py`, lines 117–128);
the optional `omega_trigger` key may be added at line 142. -/
structure ActivationResult where
  relation_id : String
  type : String
  source : String
  target : String
  meaning : String
  timestamp : Nat
  certainty : ℚ
  tension_level : ℚ
  phi_context : List String
  blind_spots : List String
  omega_trigger : Option String := none
deriving DecidableEq

/-- One entry of `transformation_history`: `activate` appends a
`{timestamp, activation_result, context_snapshot}` dictionary
(lines 131–135), `transform` a `{timestamp, transformation}` dictionary
(lines 194–201). -/
inductive HistoryEntry where
  | activation (timestamp : Nat) (result : ActivationResult) (context_snapshot : String)
  | transformation (timestamp : Nat) (fromType toType reason : String)
deriving DecidableEq

/-- The error dictionary `{"error": ..., "relation_id": ...}` returned by
`activate` on an inactive relation (line 111). -/
structure ActivationError where
  error : String
  relation_id : String
deriving DecidableEq

/-- The optional `context` argument of `activate`: the only thing read
from it is `getattr(context, 'name', 'unknown')`, so it is modelled as a
record with an optional `name` attribute. -/
structure RunContext where
  name : Option String := none

/-- Dataclass `OntologicalRelation` (`src/core/relation.py`, lines 23–66).
`created`/`last_activated` are clock ticks; the `id` and
`habeas_weight_id` UUIDs are plain strings supplied by the caller where
the source draws fresh ones.  The derived `fair_care_metadata` export
dictionary is not carried: `__post_init__` rebuilds it from the other
fields and no claim mentions it. -/
structure OntologicalRelation where
  id : String := "00000000"
  source : String := ""
  target : String := ""
  type : String := "Λ"
  context_id : Option String := none
  meaning : String := ""
  intensity : ℚ := 1
  certainty : ℚ := 7/10
  coherence_contribution : ℚ := 0
  created : Nat := 0
  last_activated : Option Nat := none
  lifespan : Option ℚ := none
  activation_count : Nat := 0
  phi_meta : List String := []
  blind_spots : List String := []
  habeas_weight_id : String := ""
  is_active : Bool := true
  tension_level : ℚ := 0
  transformation_history : List HistoryEntry := []
deriving DecidableEq

/-- Method `OntologicalRelation._infer_meaning` (lines 75–85). -/
def infer_meaning (t : String) : String :=
  if t = "Α" then "коллапс потенции в актуальность"
  else if t = "Λ" then "установление онтологической связи"
  else if t = "Σ" then "синтез нового целого из частей"
  else if t = "Ω" then "возврат к источнику и извлечение инварианта"
  else if t = "∇" then "обогащение контекста инвариантом"
  else if t = "Φ" then "диалог с Эфосом, признание непознаваемого"
  else "онтологическая связь типа " ++ t

/-- Python's `x or default` on an optional string argument: `None` and
the empty string are both falsy, so both fall back to the default. -/
def pyOrStr (x : Option String) (default : String) : String :=
  match x with
  | none => default
  | some s => if s = "" then default else s

/-- Slice `self.transformation_history[-3:]` (line 152). -/
def recentHistory (h : List HistoryEntry) : List HistoryEntry :=
  h.drop (h.length - 3)

/-- The `stability` ratio of `_update_certainty` (line 153):
`sum(1 for _ in recent) / len(recent)` — the count of the recent entries
divided by that same count. -/
def stabilityRatio (h : List HistoryEntry) : ℚ :=
  ((recentHistory h).length : ℚ) / ((recentHistory h).length : ℚ)

/-- Method `OntologicalRelation._update_certainty` (lines 146–154). -/
def update_certainty (r : OntologicalRelation) : OntologicalRelation :=
  if r.transformation_history = [] then r
  else
    { r with
      certainty :=
        min 1 (r.certainty * (8/10) + stabilityRatio r.transformation_history * (2/10)) }

/-- Method `OntologicalRelation.activate` (lines 108–144), as a state
transformer: the pair is (relation after the call, returned dictionary).
The history entry appended at lines 131–135 holds a reference to the very
`result` dictionary that is returned, so the stored entry carries the
`omega_trigger` key whenever the returned dictionary does. -/
def activate (r : OntologicalRelation) (context : Option RunContext) (now : Nat) :
    OntologicalRelation × (ActivationError ⊕ ActivationResult) :=
  if r.is_active = false then
    (r, Sum.inl { error := "Связь неактивна", relation_id := r.id })
  else
    let r1 := { r with
      is_active := true
      last_activated := some now
      activation_count := r.activation_count + 1 }
    let base : ActivationResult := {
      relation_id := r.id
      type := r.type
      source := r.source
      target := r.target
      meaning := r.meaning
      timestamp := now
      certainty := r.certainty
      tension_level := r.tension_level
      phi_context := r.phi_meta
      blind_spots := r.blind_spots
      omega_trigger := none }
    let snapshot : String :=
      match context with
      | none => "none"
      | some c => c.name.getD "unknown"
    let histWith : ActivationResult → List HistoryEntry := fun res =>
      r1.transformation_history ++ [HistoryEntry.activation now res snapshot]
    let r2 := update_certainty { r1 with transformation_history := histWith base }
    let result :=
      if r2.certainty < 3/10 ∧ r2.tension_level > 7/10 then
        { base with omega_trigger := some "активирован Ω-автомат: кризис связи" }
      else base
    ({ r2 with transformation_history := histWith result }, Sum.inr result)

/-- Method `OntologicalRelation.__call__` (lines 225–227): plain delegation to
`activate` with the same argument. -/
def relationCall (r : OntologicalRelation) (context : Option RunContext) (now : Nat) :
    OntologicalRelation × (ActivationError ⊕ ActivationResult) :=
  activate r context now

/-- Method `OntologicalRelation.transform` (lines 182–203), as a state
transformer: the pair is (original after the call, returned successor).
`now` stands for `datetime.now()`, `newId`/`newHW` for the successor's
fresh UUID defaults.  The successor is built by the dataclass
constructor, so `__post_init__` applies `_infer_meaning` only if the
supplied meaning were empty (it never is: it carries a non-empty
prefix). -/
def transform (r : OntologicalRelation) (new_type new_target : Option String)
    (now : Nat) (newId newHW : String) :
    OntologicalRelation × OntologicalRelation :=
  let suppliedMeaning := "Трансформированная из " ++ r.id ++ ": " ++ r.meaning
  let transformed : OntologicalRelation := {
    id := newId
    source := r.source
    target := pyOrStr new_target r.target
    type := pyOrStr new_type r.type
    context_id := r.context_id
    meaning := if suppliedMeaning = "" then infer_meaning (pyOrStr new_type r.type)
               else suppliedMeaning
    intensity := 1
    certainty := r.certainty * (8/10)
    coherence_contribution := 0
    created := now
    last_activated := none
    lifespan := none
    activation_count := 0
    phi_meta := r.phi_meta ++ ["трансформация"]
    blind_spots := r.blind_spots ++ ["утрата исходного контекста"]
    habeas_weight_id := newHW
    is_active := true
    tension_level := 0
    transformation_history := [] }
  let rAfter := { r with
    transformation_history := r.transformation_history ++
      [HistoryEntry.transformation now r.type transformed.type "онтологическая эволюция"]
    is_active := false }
  (rAfter, transformed)

/-- Python's `f"{x:.2f}"`: round to two decimal places, ties to even
(the IEEE-754 rounding Python's fixed-point formatting applies), here on
the exact rational value. -/
def roundHalfEven (q : ℚ) : ℤ :=
  if q - ⌊q⌋ < 1/2 then ⌊q⌋
  else if q - ⌊q⌋ > 1/2 then ⌊q⌋ + 1
  else if ⌊q⌋ % 2 = 0 then ⌊q⌋ else ⌊q⌋ + 1

/-- Renders `n` hundredths as a fixed-point numeral with two decimals. -/
def hundredthsToString (n : Nat) : String :=
  toString (n / 100) ++ "." ++ (if n % 100 < 10 then "0" else "") ++ toString (n % 100)

/-- Two-decimal fixed-point formatting of a rational (`f"{x:.2f}"`). -/
def format2f (q : ℚ) : String :=
  let c := roundHalfEven (q * 100)
  if c < 0 then "-" ++ hundredthsToString (-c).toNat
  else hundredthsToString c.toNat

/-- Method `OntologicalRelation.to_logos_expression` (lines 205–216). -/
def to_logos_expression (r : OntologicalRelation) : List String :=
  if r.type = "Λ" then [r.type, r.source, r.target]
  else if r.type ∈ ["Σ", "Ω", "∇", "Φ"] then
    [r.type, r.source, r.target,
     ":значение \"" ++ r.meaning ++ "\"",
     ":уверенность " ++ format2f r.certainty]
  else ["Α", r.source, ":тип \"" ++ r.type ++ "\""]

/-! ## fair_encoder.py — `FAIREncoder._extract_keywords` -/

/-- The slice of the evaluation context that `_extract_keywords` reads:
the graph's node names (`str(node)` applied), the `relation` attribute of
each edge (absent attribute = `none`; every `OntologicalRelation` has a
`type`, carried here directly), and the blind-spot keys. -/
structure EncoderContext where
  nodes : List String := []
  edgeRelationTypes : List (Option String) := []
  blind_spots : List String := []

/-- The four keywords the `keywords` set is seeded with
(`src/semantic_db/fair_encoder.py`, line 76). -/
def baselineKeywords : List String :=
  ["LOGOS-κ", "онтологический-цикл", "lambda-universe", "semanticdb"]

/-- Expression `str(node).lower().replace(" ", "-")` (line 80); the pattern being
the single character `" "`, the substring replacement is exactly a
character-wise substitution. -/
def entityKeyword (node : String) : String :=
  String.mk ((pyLower node).data.map (fun c => if c = ' ' then '-' else c))

/-- The multiset of keywords fed to the `keywords` set by
`_extract_keywords` (lines 76–90): the baseline seed, one keyword per
graph node, one per relation-bearing edge, one per blind-spot key. -/
def keywordPool (ctx : EncoderContext) : List String :=
  baselineKeywords
    ++ ctx.nodes.map entityKeyword
    ++ (ctx.edgeRelationTypes.filterMap id).map (fun t => "связь-" ++ pyLower t)
    ++ ctx.blind_spots.map (fun s => "слепое-пятно-" ++ s)

/-- Lexicographic comparison of character lists by code point — the
order Python's string `<=` implements. -/
def charsLe : List Char → List Char → Bool
  | [], _ => true
  | _ :: _, [] => false
  | a :: as, b :: bs =>
    if a < b then true
    else if b < a then false
    else charsLe as bs

/-- Python's `<=` on strings (code-point lexicographic). -/
def strLe (a b : String) : Bool := charsLe a.data b.data

/-- Method `FAIREncoder._extract_keywords` (lines 73–92):
`sorted(keywords)[:20]`.  The Python `set` is modelled by `dedup`
(duplicates collapse; sorting then erases the residual order), `sorted`
by insertion sort under `strLe`, the code-point order Python's `sorted`
uses on strings. -/
def extract_keywords (ctx : EncoderContext) : List String :=
  (List.insertionSort (fun a b : String => strLe a b = true)
    (keywordPool ctx).dedup).take 20

/-! ## serializer.py — `SemanticDBSerializer.to_yaml`, `cycle_summary` section -/

/-- A Python run-time lookup failure: a subscript on a missing key, or a
reference to a name with no binding in scope. -/
inductive PyLookupError where
  | keyError (key : String)
  | nameError (name : String)
deriving DecidableEq

/-- The `cycle_data` dictionary handed to `to_yaml`
(`src/semantic_db/serializer.py`): each key the `cycle_summary` section
reads, `none` when the key is absent. -/
structure CycleData where
  cycle_id : Option String := none
  timestamp : Option String := none
  expressions_evaluated : Option ℤ := none
  successful_evaluations : Option ℤ := none
  final_coherence : Option ℚ := none
  phi_dialogues_count : Option ℤ := none
  nigc_scores : Option (List ℚ) := none
deriving DecidableEq

/-- The `cycle_summary` sub-dictionary of the YAML report
(`serializer.py`, lines 71–79), were its construction to complete. -/
structure CycleSummarySection where
  cycle_id : String
  timestamp : String
  expressions_evaluated : ℤ
  successful_evaluations : ℤ
  final_coherence : ℚ
  phi_dialogues_count : ℤ
  nigc_scores : List ℚ
deriving DecidableEq

/-- Python subscription `d[key]`, raising `KeyError` when absent. -/
def pyGetItem {α : Type} (v : Option α) (key : String) : Except PyLookupError α :=
  match v with
  | some x => Except.ok x
  | none => Except.error (PyLookupError.keyError key)

/-- Line 75 of `serializer.py` evaluates
`cycle_of_data.get('successful_evaluations', 0)` — but no binding named
`cycle_of_data` exists in any enclosing scope (the parameter is named
`cycle_data`), so Python raises `NameError` before any attribute of the
value could be read. -/
def cycle_of_data_ref : Except PyLookupError CycleData :=
  Except.error (PyLookupError.nameError "cycle_of_data")

/-- The construction of the `cycle_summary` section of
`SemanticDBSerializer.to_yaml`'s report (`serializer.py`, lines 71–79),
with Python's left-to-right evaluation of the dictionary literal made
explicit.  (The `metadata` section evaluated before it reads only the
context and the clock; the sections after it are never reached, because
line 75 fails — see `cycle_of_data_ref`.) -/
def to_yaml_cycle_summary (cycle_data : CycleData) :
    Except PyLookupError CycleSummarySection := do
  let cid ← pyGetItem cycle_data.cycle_id "cycle_id"
  let ts ← pyGetItem cycle_data.timestamp "timestamp"
  let ee ← pyGetItem cycle_data.expressions_evaluated "expressions_evaluated"
  let src ← cycle_of_data_ref
  let se := src.successful_evaluations.getD 0
  let fc ← pyGetItem cycle_data.final_coherence "final_coherence"
  let pd ← pyGetItem cycle_data.phi_dialogues_count "phi_dialogues_count"
  let ns := cycle_data.nigc_scores.getD []
  Except.ok { cycle_id := cid, timestamp := ts, expressions_evaluated := ee,
              successful_evaluations := se, final_coherence := fc,
              phi_dialogues_count := pd, nigc_scores := ns }

/-- A fully populated cycle summary, as the evaluator would hand over
for a short demo cycle. -/
def sampleCycleData : CycleData :=
  { cycle_id := some "cycle_demo"
    timestamp := some "2026-10-12T00:00:00"
    expressions_evaluated := some 6
    successful_evaluations := some 6
    final_coherence := some (7/10)
    phi_dialogues_count := some 1
    nigc_scores := some [1/2] }

/-! ## Concrete sample values used by witnesses -/

/-- A freshly constructed, active Λ-relation. -/
def sampleRelation : OntologicalRelation :=
  { id := "rel_0001"
    source := "человек"
    target := "ИИ"
    type := "Λ"
    meaning := "установление онтологической связи"
    certainty := 7/10 }

/-- A deactivated relation. -/
def inactiveRelation : OntologicalRelation :=
  { id := "rel_0002"
    source := "человек"
    target := "ИИ"
    type := "Σ"
    meaning := "синтез"
    certainty := 1/2
    activation_count := 4
    last_activated := some 17
    is_active := false }

/-! ## The claims -/

/-- Claim C1: the claim says `SemanticDBSerializer.to_yaml` returns a YAML
report whose `cycle_summary` section carries the cycle id, timestamp,
expression and success counts, final coherence, Φ-dialogue count and
diagnostic scores.  The code cannot: building that very section evaluates
the undefined name `cycle_of_data` (serializer.py line 75), so `to_yaml`
raises `NameError` on every input — here evaluated on a fully populated
cycle summary. -/
theorem to_yaml_cycle_summary_raises_name_error :
    to_yaml_cycle_summary sampleCycleData =
      Except.error (PyLookupError.nameError "cycle_of_data") := rfl

/-- Claim C3: `significance_score` is the clamp to `[0,1]` of
`0.4·|coherence_after − coherence_before| + (0.2 if phi_meta nonempty)
+ 0.2·tensions_resolved − 0.1·tensions_created + (0.1 if blind spots
involved)`, and on the spec's concrete example event it equals 0.66. -/
theorem significance_score_formula_and_example :
    (∀ e : OntologicalEvent,
      significance_score e =
        max 0 (min 1
          (|e.coherence_after - e.coherence_before| * (4/10)
            + (if e.phi_meta ≠ [] then (2 : ℚ)/10 else 0)
            + ((e.tensions_resolved : ℚ) * (2/10) - (e.tensions_created : ℚ) * (1/10))
            + (if e.blind_spots_involved ≠ [] then (1 : ℚ)/10 else 0)))) ∧
    significance_score significanceExampleEvent = 66/100 := by
  constructor
  · intro e
    simp only [significance_score]
    by_cases h1 : e.phi_meta = [] <;> by_cases h2 : e.blind_spots_involved = [] <;>
      simp [h1, h2]
  · simp [significance_score, significanceExampleEvent]
    rw [abs_of_nonneg (by norm_num)]
    norm_num

/-- Claim C7: `activate` on an inactive relation returns the error
dictionary `{"error": ..., "relation_id": id}` and leaves the relation
unchanged — in particular activation counter, certainty, transformation
history and last-activated timestamp keep their prior values. -/
theorem activate_inactive_no_mutation (r : OntologicalRelation)
    (ctx : Option RunContext) (now : Nat) (h : r.is_active = false) :
    activate r ctx now =
      (r, Sum.inl { error := "Связь неактивна", relation_id := r.id }) ∧
    (activate r ctx now).1.activation_count = r.activation_count ∧
    (activate r ctx now).1.certainty = r.certainty ∧
    (activate r ctx now).1.transformation_history = r.transformation_history ∧
    (activate r ctx now).1.last_activated = r.last_activated := by
  have key : activate r ctx now =
      (r, Sum.inl { error := "Связь неактивна", relation_id := r.id }) := by
    simp [activate, h]
  exact ⟨key, by rw [key], by rw [key], by rw [key], by rw [key]⟩

/-- Witness for claim C7, at a concrete deactivated relation. -/
theorem activate_inactive_no_mutation_witness :
    activate inactiveRelation none 3 =
      (inactiveRelation,
       Sum.inl { error := "Связь неактивна", relation_id := "rel_0002" }) :=
  (activate_inactive_no_mutation inactiveRelation none 3 rfl).1

/-- Claim C9: invoking a relation directly as a callable (`__call__`)
returns the same result and performs the same state change as calling
`activate` with the same argument. -/
theorem call_equals_activate (r : OntologicalRelation)
    (ctx : Option RunContext) (now : Nat) :
    relationCall r ctx now = activate r ctx now := rfl

/-- The meaning `transform` hands to the successor's constructor is never
empty: it starts with a non-empty literal prefix. -/
theorem transform_meaning_ne_empty (i m : String) :
    "Трансформированная из " ++ i ++ ": " ++ m ≠ "" := by
  intro he
  have hl := congrArg String.length he
  simp only [String.length_append] at hl
  have h22 : ("Трансформированная из ").length = 22 := rfl
  have h0 : ("" : String).length = 0 := rfl
  omega

/-- Claim C4: for a relation whose blind-spot list does not yet carry the
"loss of original context" marker, `transform` deactivates the original
and returns a successor whose certainty is 0.8 times the original's and
whose blind-spot list carries the marker. -/
theorem transform_deactivates_and_marks_blind_spot (r : OntologicalRelation)
    (new_type new_target : Option String) (now : Nat) (newId newHW : String)
    (_hAbsent : "утрата исходного контекста" ∉ r.blind_spots) :
    (transform r new_type new_target now newId newHW).1.is_active = false ∧
    (transform r new_type new_target now newId newHW).2.certainty =
      (8/10) * r.certainty ∧
    "утрата исходного контекста" ∈
      (transform r new_type new_target now newId newHW).2.blind_spots := by
  refine ⟨rfl, ?_, ?_⟩
  · show r.certainty * (8/10) = (8/10) * r.certainty
    ring
  · show "утрата исходного контекста" ∈ r.blind_spots ++ ["утрата исходного контекста"]
    simp

/-- Witness for claim C4, at a concrete relation with no blind spots. -/
theorem transform_deactivates_and_marks_blind_spot_witness :
    (transform sampleRelation (some "Σ") none 5 "rel_0003" "hw_0003").1.is_active = false ∧
    (transform sampleRelation (some "Σ") none 5 "rel_0003" "hw_0003").2.certainty =
      (8/10) * sampleRelation.certainty ∧
    "утрата исходного контекста" ∈
      (transform sampleRelation (some "Σ") none 5 "rel_0003" "hw_0003").2.blind_spots :=
  transform_deactivates_and_marks_blind_spot sampleRelation
    (some "Σ") none 5 "rel_0003" "hw_0003" (by simp [sampleRelation])

/-- Claim C10: the successor returned by `transform` carries exactly the
source, the (possibly overridden, Python-`or`-style) target and type, the
prefixed meaning, 0.8 times the certainty, the extended Φ-metadata and
blind-spot lists and the context association of the original; every other
field takes the fresh dataclass default — tension level 0, intensity 1,
unbounded lifespan, zero activations, active, empty history. -/
theorem transform_successor_fields (r : OntologicalRelation)
    (new_type new_target : Option String) (now : Nat) (newId newHW : String) :
    (transform r new_type new_target now newId newHW).2.source = r.source ∧
    (transform r new_type new_target now newId newHW).2.target =
      pyOrStr new_target r.target ∧
    (transform r new_type new_target now newId newHW).2.type =
      pyOrStr new_type r.type ∧
    (transform r new_type new_target now newId newHW).2.meaning =
      "Трансформированная из " ++ r.id ++ ": " ++ r.meaning ∧
    (transform r new_type new_target now newId newHW).2.certainty =
      r.certainty * (8/10) ∧
    (transform r new_type new_target now newId newHW).2.phi_meta =
      r.phi_meta ++ ["трансформация"] ∧
    (transform r new_type new_target now newId newHW).2.blind_spots =
      r.blind_spots ++ ["утрата исходного контекста"] ∧
    (transform r new_type new_target now newId newHW).2.context_id = r.context_id ∧
    (transform r new_type new_target now newId newHW).2.tension_level = 0 ∧
    (transform r new_type new_target now newId newHW).2.intensity = 1 ∧
    (transform r new_type new_target now newId newHW).2.lifespan = none ∧
    (transform r new_type new_target now newId newHW).2.activation_count = 0 ∧
    (transform r new_type new_target now newId newHW).2.is_active = true ∧
    (transform r new_type new_target now newId newHW).2.transformation_history = [] ∧
    (transform r new_type new_target now newId newHW).2.coherence_contribution = 0 ∧
    (transform r new_type new_target now newId newHW).2.last_activated = none := by
  refine ⟨rfl, rfl, rfl, ?_, rfl, rfl, rfl, rfl, rfl, rfl, rfl, rfl, rfl, rfl, rfl, rfl⟩
  show (if "Трансформированная из " ++ r.id ++ ": " ++ r.meaning = "" then
          infer_meaning (pyOrStr new_type r.type)
        else "Трансформированная из " ++ r.id ++ ": " ++ r.meaning) = _
  rw [if_neg (transform_meaning_ne_empty r.id r.meaning)]

/-- Claim C6: `to_logos_expression` returns the three-element
`[type, source, target]` form for Λ; the five-element form with the
meaning and two-decimal certainty keyword strings for Σ, Ω, ∇, Φ; and for
every other type the three-element form headed by the literal gesture
symbol "Α", with the actual type in a `:type`-keyword string. -/
theorem to_logos_expression_cases (r : OntologicalRelation) :
    (r.type = "Λ" → to_logos_expression r = [r.type, r.source, r.target]) ∧
    (r.type ∈ (["Σ", "Ω", "∇", "Φ"] : List String) →
      to_logos_expression r =
        [r.type, r.source, r.target,
         ":значение \"" ++ r.meaning ++ "\"",
         ":уверенность " ++ format2f r.certainty]) ∧
    (r.type ≠ "Λ" → r.type ∉ (["Σ", "Ω", "∇", "Φ"] : List String) →
      to_logos_expression r = ["Α", r.source, ":тип \"" ++ r.type ++ "\""]) := by
  refine ⟨?_, ?_, ?_⟩
  · intro h
    simp [to_logos_expression, h]
  · intro h
    have hne : r.type ≠ "Λ" := by
      simp only [List.mem_cons, List.not_mem_nil, or_false] at h
      rcases h with h | h | h | h <;> simp [h]
    simp [to_logos_expression, hne, h]
  · intro h1 h2
    simp [to_logos_expression, h1, h2]

/-- Witness for claim C6, at a concrete Λ-relation. -/
theorem to_logos_expression_cases_witness :
    to_logos_expression sampleRelation = ["Λ", "человек", "ИИ"] := by
  have h := (to_logos_expression_cases sampleRelation).1 rfl
  simpa [sampleRelation] using h

/-- The `stability` ratio of `_update_certainty` is a count divided by
itself, hence 1 whenever the history is non-empty. -/
theorem stabilityRatio_of_ne_nil (h : List HistoryEntry) (hne : h ≠ []) :
    stabilityRatio h = 1 := by
  unfold stabilityRatio recentHistory
  have hpos : 0 < h.length := List.length_pos.mpr hne
  have hlen : (h.drop (h.length - 3)).length ≠ 0 := by
    rw [List.length_drop]
    omega
  have hq : ((h.drop (h.length - 3)).length : ℚ) ≠ 0 := by
    exact_mod_cast hlen
  exact div_self hq

/-- The history `activate` recomputes certainty over always ends in the
entry it just appended, so its `stability` ratio is 1. -/
theorem stabilityRatio_append_one (h : List HistoryEntry) (e : HistoryEntry) :
    stabilityRatio (h ++ [e]) = 1 :=
  stabilityRatio_of_ne_nil _ (by simp)

/-- Claim C5: a successful `activate` on an active relation with
certainty `c` recomputes the certainty to `min 1 (0.8·c + 0.2)` — the
stability ratio entering the recomputation (computed over the history the
call just appended to) being exactly 1 — so for `c ∈ [0,1]` the new
certainty never drops below `c` and never exceeds 1. -/
theorem activate_certainty_update (r : OntologicalRelation)
    (ctx : Option RunContext) (now : Nat)
    (hact : r.is_active = true) (_h0 : 0 ≤ r.certainty) (h1 : r.certainty ≤ 1) :
    (activate r ctx now).1.certainty =
      min 1 (r.certainty * (8/10) + 1 * (2/10)) ∧
    stabilityRatio (activate r ctx now).1.transformation_history = 1 ∧
    r.certainty ≤ (activate r ctx now).1.certainty ∧
    (activate r ctx now).1.certainty ≤ 1 := by
  have hcert : (activate r ctx now).1.certainty =
      min 1 (r.certainty * (8/10) + 1 * (2/10)) := by
    simp [activate, hact, update_certainty, stabilityRatio_append_one]
  have hhist : stabilityRatio (activate r ctx now).1.transformation_history = 1 := by
    simp [activate, hact, update_certainty, stabilityRatio_append_one]
  refine ⟨hcert, hhist, ?_, ?_⟩
  · rw [hcert]
    refine le_min h1 (by linarith)
  · rw [hcert]
    exact min_le_left _ _

/-- Witness for claim C5, at a concrete active relation with
certainty 0.7 (the new certainty is min 1 (0.76) = 0.76 ≥ 0.7). -/
theorem activate_certainty_update_witness :
    (activate sampleRelation none 9).1.certainty =
      min 1 (sampleRelation.certainty * (8/10) + 1 * (2/10)) ∧
    stabilityRatio (activate sampleRelation none 9).1.transformation_history = 1 ∧
    sampleRelation.certainty ≤ (activate sampleRelation none 9).1.certainty ∧
    (activate sampleRelation none 9).1.certainty ≤ 1 :=
  activate_certainty_update sampleRelation none 9 rfl
    (by norm_num [sampleRelation]) (by norm_num [sampleRelation])

/-- Claim C8: `validate_no_absolutism` returns normally on absent or
empty text; on non-empty text it raises `OntologicalLimitError` exactly
when some whitespace-delimited word of the lower-cased text is one of the
absolutism keywords (a keyword hiding inside a longer word is not
flagged); it fails on "Это всегда верно" and passes on
"Это иногда верно". -/
theorem validate_no_absolutism_whole_words :
    validate_no_absolutism none = Except.ok () ∧
    validate_no_absolutism (some "") = Except.ok () ∧
    (∀ t : String, t ≠ "" →
      ((validate_no_absolutism (some t)).isOk = false ↔
        ∃ w ∈ pySplit (pyLower t), w ∈ ABSOLUTISM_KEYWORDS)) ∧
    (validate_no_absolutism (some "Это всегда верно")).isOk = false ∧
    (validate_no_absolutism (some "Это иногда верно")).isOk = true := by
  refine ⟨rfl, rfl, ?_, by decide, by decide⟩
  intro t ht
  simp only [validate_no_absolutism, if_neg ht]
  by_cases hcase :
      ABSOLUTISM_KEYWORDS.any (fun k => (pySplit (pyLower t)).contains k) = true
  · rw [if_pos hcase]
    refine ⟨fun _ => ?_, fun _ => rfl⟩
    rw [List.any_eq_true] at hcase
    obtain ⟨k, hk, hkw⟩ := hcase
    exact ⟨k, List.elem_iff.mp hkw, hk⟩
  · rw [if_neg hcase]
    refine ⟨fun hcontra => Bool.noConfusion hcontra, fun hex => ?_⟩
    exfalso
    apply hcase
    rw [List.any_eq_true]
    obtain ⟨w, hw, hkw⟩ := hex
    exact ⟨w, hkw, List.elem_iff.mpr hw⟩

/-- Witness for claim C8, discharging the non-emptiness hypothesis of its
whole-word characterization at the spec's failing text. -/
theorem validate_no_absolutism_whole_words_witness :
    (validate_no_absolutism (some "Это всегда верно")).isOk = false ↔
      ∃ w ∈ pySplit (pyLower "Это всегда верно"), w ∈ ABSOLUTISM_KEYWORDS :=
  validate_no_absolutism_whole_words.2.2.1 "Это всегда верно" (by decide)

/-- Totality of `charsLe`. -/
theorem charsLe_total : ∀ as bs : List Char, charsLe as bs = true ∨ charsLe bs as = true
  | [], _ => Or.inl rfl
  | _ :: _, [] => Or.inr rfl
  | a :: as, b :: bs => by
    rcases lt_trichotomy a b with h | h | h
    · left
      simp [charsLe, h]
    · subst h
      rcases charsLe_total as bs with ih | ih
      · left
        simp [charsLe, lt_irrefl, ih]
      · right
        simp [charsLe, lt_irrefl, ih]
    · right
      simp [charsLe, h]

/-- Transitivity of `charsLe`. -/
theorem charsLe_trans : ∀ as bs cs : List Char,
    charsLe as bs = true → charsLe bs cs = true → charsLe as cs = true
  | [], _, _, _, _ => rfl
  | _ :: _, [], _, h1, _ => by simp [charsLe] at h1
  | _ :: _, _ :: _, [], _, h2 => by simp [charsLe] at h2
  | a :: as, b :: bs, c :: cs, h1, h2 => by
    rcases lt_trichotomy a b with hab | hab | hab
    · rcases lt_trichotomy b c with hbc | hbc | hbc
      · simp [charsLe, lt_trans hab hbc]
      · subst hbc
        simp [charsLe, hab]
      · rw [charsLe, if_neg (asymm hbc), if_pos hbc] at h2
        exact absurd h2 (by simp)
    · subst hab
      rcases lt_trichotomy a c with hac | hac | hac
      · simp [charsLe, hac]
      · subst hac
        rw [charsLe, if_neg (lt_irrefl a), if_neg (lt_irrefl a)] at h1 h2
        rw [charsLe, if_neg (lt_irrefl a), if_neg (lt_irrefl a)]
        exact charsLe_trans as bs cs h1 h2
      · rw [charsLe, if_neg (asymm hac), if_pos hac] at h2
        exact absurd h2 (by simp)
    · rw [charsLe, if_neg (asymm hab), if_pos hab] at h1
      exact absurd h1 (by simp)

instance strLe_isTotal : IsTotal String (fun a b : String => strLe a b = true) :=
  ⟨fun a b => charsLe_total a.data b.data⟩

instance strLe_isTrans : IsTrans String (fun a b : String => strLe a b = true) :=
  ⟨fun a b c => charsLe_trans a.data b.data c.data⟩

/-- Holding of `charsLe as bs` excludes the strict lexicographic inequality
`bs < as`. -/
theorem not_lex_lt_of_charsLe :
    ∀ as bs : List Char, charsLe as bs = true → ¬ List.Lex (· < ·) bs as
  | [], _, _, hlt => by cases hlt
  | _ :: _, [], h, _ => by simp [charsLe] at h
  | a :: as, b :: bs, h, hlt => by
    cases hlt with
    | rel hba =>
      rw [charsLe, if_neg (asymm hba), if_pos hba] at h
      exact absurd h (by simp)
    | cons htail =>
      rw [charsLe, if_neg (lt_irrefl a), if_neg (lt_irrefl a)] at h
      exact not_lex_lt_of_charsLe as bs h htail

/-- Truth of `strLe` implies the library's alphabetical (code-point
lexicographic) order on strings. -/
theorem strLe_imp_le (a b : String) (h : strLe a b = true) : a ≤ b := by
  rw [String.le_iff_toList_le]
  exact not_lt.mp (not_lex_lt_of_charsLe a.data b.data h)

/-- A context with seventeen Latin-alphabet entity names: together with
the three Latin-script baseline keywords they fill the 20-entry budget,
pushing the Cyrillic baseline keyword (which sorts after every Latin
string in code-point order) past the cut. -/
def manyNodesCtx : EncoderContext :=
  { nodes := ["n01", "n02", "n03", "n04", "n05", "n06", "n07", "n08", "n09",
              "n10", "n11", "n12", "n13", "n14", "n15", "n16", "n17"] }

/-- Counterexample to claim C2 as stated: on `manyNodesCtx` the result of
`_extract_keywords` no longer contains the baseline keyword
"онтологический-цикл" — `sorted(keywords)[:20]` cut it off. -/
theorem extract_keywords_drops_baseline_keyword :
    "онтологический-цикл" ∈ baselineKeywords ∧
    "онтологический-цикл" ∉ extract_keywords manyNodesCtx := by
  constructor
  · decide
  · decide

/-- Claim C2 (amended): `_extract_keywords` always returns an
alphabetically sorted list of at most 20 entries, and it contains all
four baseline keywords whenever the deduplicated keyword pool fits the
20-entry budget; when the pool is larger, only the alphabetically first
20 keywords survive, which can drop baseline keywords (see the
counterexample). -/
theorem extract_keywords_sorted_truncated (ctx : EncoderContext) :
    List.Sorted (fun a b : String => a ≤ b) (extract_keywords ctx) ∧
    (extract_keywords ctx).length ≤ 20 ∧
    ((keywordPool ctx).dedup.length ≤ 20 →
      ∀ k ∈ baselineKeywords, k ∈ extract_keywords ctx) := by
  refine ⟨?_, ?_, ?_⟩
  · have hs : List.Sorted (fun a b : String => strLe a b = true)
        (extract_keywords ctx) :=
      List.Pairwise.sublist (List.take_sublist _ _)
        (List.sorted_insertionSort _ _)
    exact hs.imp (fun h => strLe_imp_le _ _ h)
  · rw [extract_keywords, List.length_take]
    exact min_le_left _ _
  · intro hle k hk
    have hpool : k ∈ keywordPool ctx :=
      List.mem_append_left _ (List.mem_append_left _ (List.mem_append_left _ hk))
    have hsorted : k ∈ List.insertionSort (fun a b : String => strLe a b = true)
        (keywordPool ctx).dedup :=
      (List.perm_insertionSort _ _).mem_iff.mpr (List.mem_dedup.mpr hpool)
    have hlen : (List.insertionSort (fun a b : String => strLe a b = true)
        (keywordPool ctx).dedup).length ≤ 20 := by
      rw [(List.perm_insertionSort _ _).length_eq]
      exact hle
    rw [extract_keywords, List.take_of_length_le hlen]
    exact hsorted

/-- Witness for claim C2's amended theorem: on the empty context the pool
is the four baseline keywords, so all of them survive. -/
theorem extract_keywords_sorted_truncated_witness :
    "онтологический-цикл" ∈
      extract_keywords { nodes := [], edgeRelationTypes := [], blind_spots := [] } :=
  (extract_keywords_sorted_truncated _).2.2 (by decide) "онтологический-цикл" (by decide)

end LogosK
